import Mathlib

/-!
Verification development for the ALAS OCR core
(module/ocr/tesseract_backend.py, module/ocr/al_ocr.py,
module/ocr/al_ocr_new.py).

The Python classes are shallowly embedded: object state becomes explicit
record passing, external libraries (pytesseract, cv2, easyocr) become
abstract oracle parameters, and fallible external calls return Except.
-/

namespace AlasOcr

/-- Python truthiness of an `Optional[str]` value: `None` and the empty
string are falsy, every other string is truthy. -/
def truthy : Option String → Bool
  | Option.none => false
  | Option.some s => s != ""

/-- Python `a or b` on two `Optional[str]` values: yields `a` when `a` is
truthy, otherwise `b`. -/
def pyOr (a b : Option String) : Option String :=
  if truthy a then a else b

/-- Embeds `whitelist.replace('-', '\\-')` from
`TesseractBackend._build_config` (tesseract_backend.py line 94): every
dash character is replaced by a backslash followed by a dash. -/
def escapeDash (w : String) : String :=
  String.mk (w.data.foldr
    (fun c acc => if c = '-' then '\\' :: '-' :: acc else c :: acc) [])

/-- Embeds `TesseractBackend._build_config` (tesseract_backend.py lines
76-97): the parts `--psm 7` and `--oem 3` are always present; the
whitelist part is appended exactly when `custom_whitelist or
self.cand_alphabet` is truthy, with dashes escaped. -/
def build_config (custom cand : Option String) : String :=
  let whitelist := pyOr custom cand
  if truthy whitelist then
    "--psm 7 --oem 3 -c tessedit_char_whitelist=" ++ escapeDash (whitelist.getD "")
  else
    "--psm 7 --oem 3"

/-- The fixed ALAS-name-to-Tesseract-locale table from
`TesseractBackend.__init__` (tesseract_backend.py lines 60-66). -/
def lang_map : List (String × String) :=
  [("azur_lane", "eng"),
   ("azur_lane_jp", "jpn+eng"),
   ("cnocr", "chi_sim+eng"),
   ("jp", "jpn"),
   ("tw", "chi_tra+eng")]

/-- The mutable per-profile state of a `TesseractBackend` object: the
fields assigned in `__init__` that later methods read or write. -/
structure OcrProfile where
  name : String
  cand_alphabet : Option String
  lang : String
  config : String
  deriving Repr, DecidableEq

/-- A 2-D grayscale raster: a list of pixel rows. (Colour inputs are
converted to single-channel grayscale by the source before any step a
claim mentions, so the embedding works with the grayscale raster.) -/
structure NdArray where
  rows : List (List Nat)
  deriving Repr, DecidableEq

/-- `ndarray.size`: the total number of pixels. -/
def NdArray.size (img : NdArray) : Nat :=
  (img.rows.map List.length).sum

/-- The argument a caller may pass where the source expects an image:
`None`, a non-array Python object, or an actual array. -/
inductive PyInput where
  | nullimg : PyInput
  | notArray : PyInput
  | array : NdArray → PyInput
  deriving Repr, DecidableEq

/-- The external recognition call of `TesseractBackend.ocr`: the body of
its `try` block (preprocessing plus `pytesseract.image_to_string`),
modelled as an abstract oracle from the raw image, the locale and the
config string to either recognized text or a raised exception. -/
def Engine : Type :=
  NdArray → String → String → Except String String

/-- Python `str.strip` whitespace set (space, tab, newline, carriage
return, vertical tab, form feed). -/
def pyIsSpace (c : Char) : Bool :=
  c = ' ' || c = '\t' || c = '\n' || c = '\r' || c = '\x0b' || c = '\x0c'

/-- Python `text.strip()` on the character list. -/
def stripChars (l : List Char) : List Char :=
  ((l.dropWhile pyIsSpace).reverse.dropWhile pyIsSpace).reverse

/-- The result clean-up of `TesseractBackend.ocr` (tesseract_backend.py
lines 183-187): strip, turn embedded newlines into spaces, drop form
feeds. -/
def cleanText (t : String) : String :=
  let s := stripChars t.data
  let s := s.map (fun c => if c = '\n' then ' ' else c)
  let s := s.filter (fun c => c != '\x0c')
  String.mk s

/-- Embeds `TesseractBackend.__init__` (tesseract_backend.py lines
38-69): `name or 'azur_lane'`, a whitelist taken as given, the locale
looked up in `lang_map` with default `'eng'`, and the config built from
the whitelist. Construction is a total function: it succeeds on every
name. -/
def initBackend (cand : Option String) (name : Option String) : OcrProfile :=
  let n := match name with
    | Option.none => "azur_lane"
    | Option.some s => if s = "" then "azur_lane" else s
  { name := n
    cand_alphabet := cand
    lang := (lang_map.lookup n).getD "eng"
    config := build_config Option.none cand }

/-- Embeds `TesseractBackend.ocr` (tesseract_backend.py lines 149-193):
empty string when Tesseract is unavailable, when the input is `None`,
not an ndarray, or of size zero; otherwise the engine call, whose
exception is caught and normalized to the empty string, and whose text
is cleaned up. -/
def ocr (E : Engine) (avail : Bool) (p : OcrProfile) (input : PyInput) : String :=
  if !avail then ""
  else match input with
    | PyInput.nullimg => ""
    | PyInput.notArray => ""
    | PyInput.array img =>
        if img.size = 0 then ""
        else match E img p.lang p.config with
          | Except.ok text => cleanText text
          | Except.error _ => ""

/-- Embeds `TesseractBackend.ocr_for_single_line` (lines 195-206):
delegates to `ocr`. -/
def ocr_for_single_line (E : Engine) (avail : Bool) (p : OcrProfile)
    (input : PyInput) : String :=
  ocr E avail p input

/-- Embeds `TesseractBackend.ocr_for_single_lines` (lines 208-218): a
list comprehension applying `ocr_for_single_line` to each image. -/
def ocr_for_single_lines (E : Engine) (avail : Bool) (p : OcrProfile)
    (inputs : List PyInput) : List String :=
  inputs.map (fun img => ocr_for_single_line E avail p img)

/-- Embeds `TesseractBackend.set_cand_alphabet` (lines 220-228): store
the new whitelist and rebuild the config. -/
def set_cand_alphabet (p : OcrProfile) (a : Option String) : OcrProfile :=
  { p with cand_alphabet := a, config := build_config Option.none a }

/-- Embeds `TesseractBackend.atomic_ocr` (tesseract_backend.py lines
230-256) as a state transformer returning the recognized text and the
profile state after the call: when the override alphabet is truthy, the
old alphabet and config are saved, the override installed, `ocr` run,
and the saved values written back; otherwise a plain `ocr` call. -/
def atomic_ocr (E : Engine) (avail : Bool) (p : OcrProfile)
    (input : PyInput) (cand : Option String) : String × OcrProfile :=
  if truthy cand then
    let old_alphabet := p.cand_alphabet
    let old_config := p.config
    let p1 := { p with cand_alphabet := cand, config := build_config Option.none cand }
    let result := ocr E avail p1 input
    (result, { p1 with cand_alphabet := old_alphabet, config := old_config })
  else
    (ocr E avail p input, p)

/-- Embeds `TesseractBackend.atomic_ocr_for_single_line` (lines
258-262): delegates to `atomic_ocr`. -/
def atomic_ocr_for_single_line (E : Engine) (avail : Bool) (p : OcrProfile)
    (input : PyInput) (cand : Option String) : String × OcrProfile :=
  atomic_ocr E avail p input cand

/-- Embeds `TesseractBackend.atomic_ocr_for_single_lines` (lines
264-297): the same save/override/restore pattern around a batch call,
with each text converted to its character list. -/
def atomic_ocr_for_single_lines (E : Engine) (avail : Bool) (p : OcrProfile)
    (inputs : List PyInput) (cand : Option String) :
    List (List Char) × OcrProfile :=
  if truthy cand then
    let old_alphabet := p.cand_alphabet
    let old_config := p.config
    let p1 := { p with cand_alphabet := cand, config := build_config Option.none cand }
    let texts := ocr_for_single_lines E avail p1 inputs
    (texts.map String.data, { p1 with cand_alphabet := old_alphabet, config := old_config })
  else
    ((ocr_for_single_lines E avail p inputs).map String.data, p)

/-! ### Preprocessing pipeline (`TesseractBackend._preprocess_image`,
tesseract_backend.py lines 99-147)

The geometric part is tracked as dimension arithmetic; the binarization,
polarity and padding stages operate on pixel rows. The data-dependent
threshold that `cv2.threshold(..., THRESH_OTSU)` computes is abstracted
as a parameter `t`; the float expression `int(width * (32 / height))` is
modelled as exact floor division. -/

/-- Dimensions after the upscaling step (lines 120-125): images shorter
than the 32-pixel minimum are resized to height 32 and width
`int(width * (32 / height))`. -/
def resizedDims (h w : Nat) : Nat × Nat :=
  if h < 32 then (32, w * 32 / h) else (h, w)

/-- Dimensions of the full pipeline output: a degenerate (zero-size)
image is returned unchanged (line 110); otherwise grayscale conversion
and thresholding keep the shape, upscaling may change it, and
`cv2.copyMakeBorder` with border 5 (lines 139-145) adds 10 to each
dimension. -/
def preprocessDims (h w : Nat) : Nat × Nat :=
  if h * w = 0 then (h, w)
  else ((resizedDims h w).1 + 10, (resizedDims h w).2 + 10)

/-- `cv2.threshold(image, 0, 255, THRESH_BINARY + THRESH_OTSU)` with the
Otsu-selected threshold `t`: a pixel becomes 255 when strictly above the
threshold, otherwise 0 (line 129). -/
def binarize (t : Nat) (rows : List (List Nat)) : List (List Nat) :=
  rows.map (List.map (fun p => if t < p then 255 else 0))

/-- `np.sum(binary == 255)` over the flattened pixels. -/
def countWhite (px : List Nat) : Nat :=
  (px.filter (fun p => p == 255)).length

/-- `cv2.bitwise_not` on an 8-bit pixel. -/
def invertPixel (p : Nat) : Nat := 255 - p

/-- The polarity-normalization step (lines 131-136): when the white
pixels are strictly fewer than half of all pixels
(`white_pixels < total_pixels * 0.5`), the binary image is inverted;
otherwise it is left alone. -/
def polarity (rows : List (List Nat)) : List (List Nat) :=
  if 2 * countWhite rows.flatten < rows.flatten.length then
    rows.map (List.map invertPixel)
  else rows

/-- `cv2.copyMakeBorder(binary, 5, 5, 5, 5, BORDER_CONSTANT, value=255)`
(lines 139-145) on a rectangular row list. -/
def padBorder (rows : List (List Nat)) : List (List Nat) :=
  let w := (rows.head?.getD []).length
  let borderRow := List.replicate (w + 10) (255 : Nat)
  List.replicate 5 borderRow
    ++ rows.map (fun r => List.replicate 5 (255 : Nat) ++ r ++ List.replicate 5 (255 : Nat))
    ++ List.replicate 5 borderRow

/-- The pipeline stages from the binarized image to the returned image:
polarity normalization followed by padding. -/
def finalizeBinary (rows : List (List Nat)) : List (List Nat) :=
  padBorder (polarity rows)

/-! ### Engine-unavailable facade (`al_ocr.py`, stub branch, lines
52-83): the methods installed on `AlOcr` when Tesseract is not
available. -/

namespace AlOcrStub

/-- Stub `ocr`: always the empty string. -/
def ocr (_ : PyInput) : String := ""

/-- Stub `ocr_for_single_line`: always the empty string. -/
def ocr_for_single_line (_ : PyInput) : String := ""

/-- Stub `ocr_for_single_lines`: one empty string per input image. -/
def ocr_for_single_lines (imgs : List PyInput) : List String :=
  imgs.map (fun _ => "")

/-- Stub `atomic_ocr_for_single_lines`: one empty character list per
input image. -/
def atomic_ocr_for_single_lines (imgs : List PyInput) (_ : Option String) :
    List (List Char) :=
  imgs.map (fun _ => [])

/-- Stub `atomic_ocr`: always the empty string. -/
def atomic_ocr (_ : PyInput) (_ : Option String) : String := ""

/-- Stub `atomic_ocr_for_single_line`: always the empty string. -/
def atomic_ocr_for_single_line (_ : PyInput) (_ : Option String) : String := ""

end AlOcrStub

/-! ### Debug (`TesseractBackend.debug`, tesseract_backend.py lines
299-321). Inputs are null-or-array (the case the spec discusses); the
file writes and log lines are abstracted to the list of logged texts,
and an exception from the sink write propagates, since `debug` has no
try/except. -/

/-- Models `cv2.imwrite` at the granularity the claims need: it succeeds
on an actual array and raises when handed a non-array object such as
None (the OpenCV binding rejects a None `img` argument). -/
def imwrite : Option NdArray → Except String Unit
  | Option.some _ => Except.ok ()
  | Option.none => Except.error "TypeError: imwrite img is not a numpy array"

/-- `_preprocess_image` as `debug` calls it (line 315), lifted to
possibly-null input: the guard at line 110 returns a None image or an
empty array unchanged; a non-empty array is transformed by the pipeline,
whose pixel content is abstracted as `P` (the result is an array). -/
def preprocessOpt (P : NdArray → NdArray) : Option NdArray → Option NdArray
  | Option.none => Option.none
  | Option.some img => if img.size = 0 then Option.some img else Option.some (P img)

/-- View of a null-or-array value as an `ocr` argument. -/
def toInput : Option NdArray → PyInput
  | Option.none => PyInput.nullimg
  | Option.some img => PyInput.array img

/-- Embeds `TesseractBackend.debug` (lines 299-321): for each image in
order, preprocess it, write the preprocessed raster to the sink, run
`ocr` on the original image and log the text. Returns the logged texts,
or the first exception the sink write raises. -/
def debug (P : NdArray → NdArray) (E : Engine) (avail : Bool) (p : OcrProfile) :
    List (Option NdArray) → Except String (List String)
  | [] => Except.ok []
  | img :: rest =>
      match imwrite (preprocessOpt P img) with
      | Except.error e => Except.error e
      | Except.ok _ =>
          let r := ocr E avail p (toInput img)
          match debug P E avail p rest with
          | Except.error e => Except.error e
          | Except.ok rs => Except.ok (r :: rs)

/-! ### Flexible facade (`al_ocr_new.py`, class `AlOcr`). The module
selects one backend at import time; the object stores the backend tag
and, for non-EasyOCR backends, a wrapped implementation (modelled by the
Tesseract profile, the branch the claims exercise). The EasyOCR reader
is an abstract oracle from the image to the `readtext` result list or a
raised exception. -/

namespace Flexible

/-- The EasyOCR `reader.readtext(image, detail=0)` call (including
reader acquisition), which may raise. -/
def Reader : Type := NdArray → Except String (List String)

/-- The mutable state of an `al_ocr_new.AlOcr` object: its own fields
plus the wrapped implementation state. -/
structure State where
  name : String
  cand_alphabet : Option String
  backend : String
  impl : OcrProfile
  deriving Repr, DecidableEq

/-- Embeds `AlOcr.ocr` (al_ocr_new.py lines 90-111): on the EasyOCR
backend, join the reader results with spaces (empty string for an empty
result list, a non-array input, or a raised exception); otherwise
delegate to the wrapped implementation. -/
def ocr (R : Reader) (E : Engine) (avail : Bool) (s : State) (input : PyInput) :
    String :=
  if s.backend = "easyocr" then
    match input with
    | PyInput.array img =>
        match R img with
        | Except.ok results =>
            if results.isEmpty then "" else String.intercalate " " results
        | Except.error _ => ""
    | _ => ""
  else
    AlasOcr.ocr E avail s.impl input

/-- Embeds `AlOcr.set_cand_alphabet` (lines 132-136): store the alphabet
on the facade and, only when the backend is not EasyOCR, forward it to
the wrapped implementation. -/
def set_cand_alphabet (s : State) (a : Option String) : State :=
  let s1 := { s with cand_alphabet := a }
  if s1.backend != "easyocr" then
    { s1 with impl := AlasOcr.set_cand_alphabet s1.impl a }
  else s1

/-- Embeds `AlOcr.atomic_ocr` (lines 138-142): with a truthy alphabet on
a non-EasyOCR backend, delegate to the wrapped implementation's atomic
call; otherwise a plain `ocr` call with no state change. -/
def atomic_ocr (R : Reader) (E : Engine) (avail : Bool) (s : State)
    (input : PyInput) (a : Option String) : String × State :=
  if truthy a && s.backend != "easyocr" then
    let rp := AlasOcr.atomic_ocr E avail s.impl input a
    (rp.1, { s with impl := rp.2 })
  else
    (ocr R E avail s input, s)

/-- Embeds `AlOcr.atomic_ocr_for_single_line` (lines 144-146): delegates
to `atomic_ocr`. -/
def atomic_ocr_for_single_line (R : Reader) (E : Engine) (avail : Bool)
    (s : State) (input : PyInput) (a : Option String) : String × State :=
  atomic_ocr R E avail s input a

end Flexible

/-! ### Interleaved execution of two `atomic_ocr` calls on one shared
profile. `TesseractBackend.atomic_ocr` mutates the shared fields
`cand_alphabet` and `_config` with no lock; this models two threads each
running the override branch (lines 242-252) at statement granularity
over the shared profile state, under an arbitrary interleaving
schedule. -/

namespace Interleave

/-- The shared per-profile fields the override branch reads and
writes. -/
structure Shared where
  cand_alphabet : Option String
  config : String
  deriving Repr, DecidableEq

/-- One thread's private data: its program counter, the saved old
alphabet and config (local variables `old_alphabet`, `old_config`), and
its recognition result once produced. -/
structure ThreadSt where
  pc : Nat
  saved_alphabet : Option String
  saved_config : String
  result : Option String
  deriving Repr, DecidableEq

/-- One step of `atomic_ocr` with truthy override alphabet `a`: pc 0
saves the shared alphabet and config (lines 242-243), pc 1 installs the
override (lines 245-246), pc 2 runs `ocr`, which reads the then-current
shared config (`obs` maps the config the engine sees to its text), pc 3
writes the saved values back (lines 251-252). -/
def stepThread (a : Option String) (obs : String → String) :
    Shared × ThreadSt → Shared × ThreadSt
  | (sh, t) =>
    match t.pc with
    | 0 => (sh, { t with saved_alphabet := sh.cand_alphabet,
                         saved_config := sh.config, pc := 1 })
    | 1 => ({ sh with cand_alphabet := a, config := build_config Option.none a },
            { t with pc := 2 })
    | 2 => (sh, { t with result := Option.some (obs sh.config), pc := 3 })
    | 3 => ({ sh with cand_alphabet := t.saved_alphabet, config := t.saved_config },
            { t with pc := 4 })
    | _ => (sh, t)

/-- A thread that has not started. -/
def initThread : ThreadSt :=
  { pc := 0, saved_alphabet := Option.none, saved_config := "", result := Option.none }

/-- Run threads A (override `aA`) and B (override `aB`) over the shared
state under a schedule: `true` steps A, `false` steps B. -/
def run (aA aB : Option String) (obs : String → String) :
    List Bool → Shared × ThreadSt × ThreadSt → Shared × ThreadSt × ThreadSt
  | [], st => st
  | c :: rest, (sh, tA, tB) =>
      if c then
        let r := stepThread aA obs (sh, tA)
        run aA aB obs rest (r.1, r.2, tB)
      else
        let r := stepThread aB obs (sh, tB)
        run aA aB obs rest (r.1, tA, r.2)

/-- A fresh profile with no alphabet restriction. -/
def sharedInit : Shared :=
  { cand_alphabet := Option.none, config := build_config Option.none Option.none }

end Interleave

/-! ### Concrete inputs used by the witness theorems. -/

/-- A sample engine that recognizes a fixed text. -/
def engineOk : Engine := fun _ _ _ => Except.ok "ok"

/-- A sample engine that always raises. -/
def engineRaises : Engine := fun _ _ _ => Except.error "boom"

/-- A sample 1x1 image. -/
def img1 : NdArray := { rows := [[7]] }

/-- A sample zero-size image. -/
def img0 : NdArray := { rows := [] }

/-- A sample profile: the default construction. -/
def profile0 : OcrProfile := initBackend Option.none Option.none

/-- A sample EasyOCR reader returning two tokens. -/
def readerOk : Flexible.Reader := fun _ => Except.ok ["hello", "world"]

/-- A sample flexible-facade state on the EasyOCR backend. -/
def flexState0 : Flexible.State :=
  { name := "azur_lane", cand_alphabet := Option.none,
    backend := "easyocr", impl := profile0 }

/-! ## Theorems -/

/-- Helper: the interior of the padded image (drop the 5 border rows on
top, keep as many rows as the input had) is the input with 5 border
pixels added on each side of every row. -/
theorem padBorder_interior (l : List (List Nat)) :
    ((padBorder l).drop 5).take l.length
      = l.map (fun r => List.replicate 5 (255 : Nat) ++ r ++ List.replicate 5 (255 : Nat)) := by
  unfold padBorder
  rw [List.append_assoc, List.drop_left' (by simp), List.take_left' (by simp)]

/-- C1: for every image and every non-empty override alphabet, a
sequentially executed `atomic_ocr` call leaves the profile's persistent
`cand_alphabet` and `_config` exactly as they were before the call, so
configs built from the profile before and after the call are
identical. -/
theorem atomic_ocr_restores_profile (E : Engine) (avail : Bool) (p : OcrProfile)
    (input : PyInput) (a : String) (h : a ≠ "") :
    (atomic_ocr E avail p input (Option.some a)).2.cand_alphabet = p.cand_alphabet ∧
    (atomic_ocr E avail p input (Option.some a)).2.config = p.config ∧
    build_config Option.none (atomic_ocr E avail p input (Option.some a)).2.cand_alphabet
      = build_config Option.none p.cand_alphabet := by
  have ht : truthy (Option.some a) = true := by simp [truthy, h]
  simp [atomic_ocr, ht]

/-- Witness for C1 at a concrete engine, profile, image and alphabet. -/
theorem atomic_ocr_restores_profile_witness :
    "0123456789" ≠ "" ∧
    ((atomic_ocr engineOk true profile0 (PyInput.array img1)
        (Option.some "0123456789")).2.cand_alphabet = profile0.cand_alphabet ∧
     (atomic_ocr engineOk true profile0 (PyInput.array img1)
        (Option.some "0123456789")).2.config = profile0.config ∧
     build_config Option.none (atomic_ocr engineOk true profile0 (PyInput.array img1)
        (Option.some "0123456789")).2.cand_alphabet
      = build_config Option.none profile0.cand_alphabet) :=
  ⟨by decide,
   atomic_ocr_restores_profile engineOk true profile0 (PyInput.array img1)
     "0123456789" (by decide)⟩

/-- C2: the save/override/restore in `atomic_ocr` is not serialized, and
an interleaving of two calls on the same profile corrupts both results
and the final profile state. Sequentially (either order) thread A with
alphabet "AB" recognizes under the "AB" config, thread B under the "CD"
config, and the profile ends unrestricted; under the interleaving
A-save, A-set, B-save, B-set, A-recognize, A-restore, B-recognize,
B-restore, thread A recognizes under B's "CD" config, thread B under the
unrestricted config, and the profile ends with A's supposedly temporary
"AB" alphabet. -/
theorem interleaved_atomic_ocr_race :
    ((Interleave.run (Option.some "AB") (Option.some "CD") (fun c => c)
        [true, true, true, true, false, false, false, false]
        (Interleave.sharedInit, Interleave.initThread, Interleave.initThread)).2.1.result
       = Option.some (build_config Option.none (Option.some "AB")) ∧
     (Interleave.run (Option.some "AB") (Option.some "CD") (fun c => c)
        [false, false, false, false, true, true, true, true]
        (Interleave.sharedInit, Interleave.initThread, Interleave.initThread)).2.1.result
       = Option.some (build_config Option.none (Option.some "AB")) ∧
     (Interleave.run (Option.some "AB") (Option.some "CD") (fun c => c)
        [true, true, true, true, false, false, false, false]
        (Interleave.sharedInit, Interleave.initThread, Interleave.initThread)).1
       = Interleave.sharedInit ∧
     (Interleave.run (Option.some "AB") (Option.some "CD") (fun c => c)
        [false, false, false, false, true, true, true, true]
        (Interleave.sharedInit, Interleave.initThread, Interleave.initThread)).1
       = Interleave.sharedInit) ∧
    (Interleave.run (Option.some "AB") (Option.some "CD") (fun c => c)
        [true, true, false, false, true, true, false, false]
        (Interleave.sharedInit, Interleave.initThread, Interleave.initThread)).2.1.result
      = Option.some (build_config Option.none (Option.some "CD")) ∧
    (Interleave.run (Option.some "AB") (Option.some "CD") (fun c => c)
        [true, true, false, false, true, true, false, false]
        (Interleave.sharedInit, Interleave.initThread, Interleave.initThread)).2.2.result
      = Option.some (build_config Option.none Option.none) ∧
    (Interleave.run (Option.some "AB") (Option.some "CD") (fun c => c)
        [true, true, false, false, true, true, false, false]
        (Interleave.sharedInit, Interleave.initThread, Interleave.initThread)).1.cand_alphabet
      = Option.some "AB" ∧
    build_config Option.none (Option.some "CD") ≠ build_config Option.none (Option.some "AB") := by
  decide

/-- C3: for a non-degenerate image strictly shorter than the 32-pixel
minimum, the pipeline output is at least 32 pixels high, the upscaled
height is exactly 32, and the upscaled width is the original width
multiplied by 32/height rounded down, which preserves the aspect ratio
within one rounding unit. -/
theorem preprocess_upscale_dims (h w : Nat) (h0 : 0 < h) (hlt : h < 32) (w0 : 0 < w) :
    32 ≤ (preprocessDims h w).1 ∧
    (resizedDims h w).1 = 32 ∧
    (resizedDims h w).2 = w * 32 / h ∧
    h * (resizedDims h w).2 ≤ w * 32 ∧
    w * 32 < h * ((resizedDims h w).2 + 1) := by
  have hm : ¬ h * w = 0 := by
    have := Nat.mul_pos h0 w0
    omega
  have hr : resizedDims h w = (32, w * 32 / h) := by
    simp [resizedDims, hlt]
  have h2 : (resizedDims h w).2 = w * 32 / h := by rw [hr]
  refine ⟨?_, ?_, ?_, ?_, ?_⟩
  · simp [preprocessDims, hm, hr]
  · rw [hr]
  · exact h2
  · rw [h2]
    calc h * (w * 32 / h) = w * 32 / h * h := Nat.mul_comm _ _
      _ ≤ w * 32 := Nat.div_mul_le_self _ _
  · rw [h2, Nat.mul_add, Nat.mul_one]
    have hd := Nat.div_add_mod (w * 32) h
    have hml := Nat.mod_lt (w * 32) h0
    omega

/-- Witness for C3 at a 10x50 image. -/
theorem preprocess_upscale_dims_witness :
    0 < 10 ∧ 10 < 32 ∧ 0 < 50 ∧
    (32 ≤ (preprocessDims 10 50).1 ∧
     (resizedDims 10 50).1 = 32 ∧
     (resizedDims 10 50).2 = 50 * 32 / 10 ∧
     10 * (resizedDims 10 50).2 ≤ 50 * 32 ∧
     50 * 32 < 10 * ((resizedDims 10 50).2 + 1)) :=
  ⟨by decide, by decide, by decide,
   preprocess_upscale_dims 10 50 (by decide) (by decide) (by decide)⟩

/-- C4: when strictly fewer than half of the pixels of the binarized
image are white (255), the polarity step inverts the image and the final
padded output's interior is the inverted binarized image; when at least
half are white, the polarity step changes nothing. -/
theorem polarity_inversion (t : Nat) (gray : List (List Nat)) :
    (2 * countWhite (binarize t gray).flatten < (binarize t gray).flatten.length →
      polarity (binarize t gray) = (binarize t gray).map (List.map invertPixel) ∧
      ((finalizeBinary (binarize t gray)).drop 5).take (binarize t gray).length
        = ((binarize t gray).map (List.map invertPixel)).map
            (fun r => List.replicate 5 (255 : Nat) ++ r ++ List.replicate 5 (255 : Nat))) ∧
    ((binarize t gray).flatten.length ≤ 2 * countWhite (binarize t gray).flatten →
      polarity (binarize t gray) = binarize t gray) := by
  constructor
  · intro hlt
    have hp : polarity (binarize t gray) = (binarize t gray).map (List.map invertPixel) := by
      unfold polarity
      rw [if_pos hlt]
    refine ⟨hp, ?_⟩
    have hlen : ((binarize t gray).map (List.map invertPixel)).length
        = (binarize t gray).length := by simp
    rw [finalizeBinary, hp, ← hlen, padBorder_interior]
  · intro hge
    unfold polarity
    rw [if_neg (Nat.not_lt.mpr hge)]

/-- Witness for C4: a 2x2 binarized image with one white pixel is
inverted. -/
theorem polarity_inversion_witness :
    2 * countWhite (binarize 100 [[200, 0], [0, 0]]).flatten
      < (binarize 100 [[200, 0], [0, 0]]).flatten.length ∧
    (polarity (binarize 100 [[200, 0], [0, 0]])
       = (binarize 100 [[200, 0], [0, 0]]).map (List.map invertPixel) ∧
     ((finalizeBinary (binarize 100 [[200, 0], [0, 0]])).drop 5).take
         (binarize 100 [[200, 0], [0, 0]]).length
       = ((binarize 100 [[200, 0], [0, 0]]).map (List.map invertPixel)).map
           (fun r => List.replicate 5 (255 : Nat) ++ r ++ List.replicate 5 (255 : Nat))) :=
  ⟨by decide, (polarity_inversion 100 [[200, 0], [0, 0]]).1 (by decide)⟩

/-- C5: `ocr_for_single_lines` is exactly the map of
`ocr_for_single_line` over the input list, preserving order and length,
and yields `[]` on `[]`. -/
theorem ocr_for_single_lines_is_map (E : Engine) (avail : Bool) (p : OcrProfile)
    (imgs : List PyInput) :
    ocr_for_single_lines E avail p imgs = imgs.map (ocr_for_single_line E avail p) ∧
    (ocr_for_single_lines E avail p imgs).length = imgs.length ∧
    ocr_for_single_lines E avail p ([] : List PyInput) = [] := by
  refine ⟨rfl, ?_, rfl⟩
  simp [ocr_for_single_lines]

/-- C6: `ocr` returns the empty string, rather than propagating an
exception, on a None input, a non-array input, a zero-size image, and
whenever the underlying engine raises. -/
theorem ocr_never_raises (E : Engine) (avail : Bool) (p : OcrProfile) :
    ocr E avail p PyInput.nullimg = "" ∧
    ocr E avail p PyInput.notArray = "" ∧
    (∀ img : NdArray, img.size = 0 → ocr E avail p (PyInput.array img) = "") ∧
    (∀ (img : NdArray) (e : String), E img p.lang p.config = Except.error e →
      ocr E avail p (PyInput.array img) = "") := by
  refine ⟨?_, ?_, ?_, ?_⟩
  · cases avail <;> simp [ocr]
  · cases avail <;> simp [ocr]
  · intro img hs
    cases avail <;> simp [ocr, hs]
  · intro img e he
    by_cases hz : img.size = 0 <;> cases avail <;> simp [ocr, he, hz]

/-- Witness for C6: a zero-size image and an engine that raises. -/
theorem ocr_never_raises_witness :
    (img0.size = 0 ∧ ocr engineOk true profile0 (PyInput.array img0) = "") ∧
    (engineRaises img1 profile0.lang profile0.config = Except.error "boom" ∧
     ocr engineRaises true profile0 (PyInput.array img1) = "") :=
  ⟨⟨rfl, (ocr_never_raises engineOk true profile0).2.2.1 img0 rfl⟩,
   ⟨rfl, (ocr_never_raises engineRaises true profile0).2.2.2 img1 "boom" rfl⟩⟩

/-- C7: `debug` on a list whose first image is None propagates the
exception the sink write raises on the None preprocessed raster, for
every preprocessing function, engine, availability and profile — even
though `ocr` itself returns the empty string on the same None image. -/
theorem debug_null_image_raises (P : NdArray → NdArray) (E : Engine)
    (avail : Bool) (p : OcrProfile) (rest : List (Option NdArray)) :
    debug P E avail p (Option.none :: rest)
      = Except.error "TypeError: imwrite img is not a numpy array" ∧
    ocr E avail p PyInput.nullimg = "" := by
  constructor
  · simp [debug, preprocessOpt, imwrite]
  · cases avail <;> simp [ocr]

/-- C8: construction is total over profile names: an unknown name still
yields a profile, bound to the default locale "eng" and with the config
built from the given whitelist, and a missing (None) name defaults to
the "azur_lane" profile (whose locale is "eng"). -/
theorem init_unknown_name_defaults (cand : Option String) (n : String)
    (hn : lang_map.lookup n = Option.none) :
    (initBackend cand (Option.some n)).lang = "eng" ∧
    (initBackend cand (Option.some n)).config = build_config Option.none cand ∧
    (initBackend cand Option.none).name = "azur_lane" ∧
    (initBackend cand Option.none).lang = "eng" := by
  refine ⟨?_, rfl, rfl, rfl⟩
  by_cases he : n = ""
  · subst he
    rfl
  · simp [initBackend, he, hn]

/-- Witness for C8 at the unknown name "klingon". -/
theorem init_unknown_name_defaults_witness :
    lang_map.lookup "klingon" = Option.none ∧
    ((initBackend (Option.some "ABC") (Option.some "klingon")).lang = "eng" ∧
     (initBackend (Option.some "ABC") (Option.some "klingon")).config
       = build_config Option.none (Option.some "ABC") ∧
     (initBackend (Option.some "ABC") Option.none).name = "azur_lane" ∧
     (initBackend (Option.some "ABC") Option.none).lang = "eng") :=
  ⟨by decide, init_unknown_name_defaults (Option.some "ABC") "klingon" (by decide)⟩

/-- C9: with no engine available, every recognition operation returns an
empty result of the right shape: the stub facade's string operations
return the empty string, its batch operations one empty string or one
empty character list per input image, and the Tesseract backend with
availability off behaves identically. -/
theorem unavailable_engine_empty_results (imgs : List PyInput) (img : PyInput)
    (a : Option String) (E : Engine) (p : OcrProfile) :
    AlOcrStub.ocr img = "" ∧
    AlOcrStub.ocr_for_single_line img = "" ∧
    AlOcrStub.atomic_ocr img a = "" ∧
    AlOcrStub.atomic_ocr_for_single_line img a = "" ∧
    AlOcrStub.ocr_for_single_lines imgs = imgs.map (fun _ => "") ∧
    (AlOcrStub.ocr_for_single_lines imgs).length = imgs.length ∧
    AlOcrStub.atomic_ocr_for_single_lines imgs a = imgs.map (fun _ => ([] : List Char)) ∧
    (AlOcrStub.atomic_ocr_for_single_lines imgs a).length = imgs.length ∧
    ocr E false p img = "" ∧
    (atomic_ocr E false p img a).1 = "" ∧
    ocr_for_single_lines E false p imgs = imgs.map (fun _ => "") ∧
    (atomic_ocr_for_single_lines E false p imgs a).1
      = imgs.map (fun _ => ([] : List Char)) := by
  refine ⟨rfl, rfl, rfl, rfl, rfl,
          by simp [AlOcrStub.ocr_for_single_lines],
          rfl,
          by simp [AlOcrStub.atomic_ocr_for_single_lines],
          by simp [ocr], ?_, ?_, ?_⟩
  · by_cases hc : truthy a = true <;>
      simp [atomic_ocr, ocr, hc]
  · simp [ocr_for_single_lines, ocr_for_single_line, ocr]
  · by_cases hc : truthy a = true <;>
      simp [atomic_ocr_for_single_lines, ocr_for_single_lines,
            ocr_for_single_line, ocr, hc]

/-- C10: on the EasyOCR backend of the flexible facade, recognition is
independent of the candidate alphabet: `atomic_ocr` and
`atomic_ocr_for_single_line` return exactly `ocr` of the image and leave
the state unchanged, and `set_cand_alphabet` changes only the stored
`cand_alphabet` field and affects no recognition result. -/
theorem easyocr_alphabet_independent (R : Flexible.Reader) (E : Engine)
    (avail : Bool) (s : Flexible.State) (input : PyInput) (a : Option String)
    (hb : s.backend = "easyocr") :
    (Flexible.atomic_ocr R E avail s input a).1 = Flexible.ocr R E avail s input ∧
    (Flexible.atomic_ocr R E avail s input a).2 = s ∧
    (Flexible.atomic_ocr_for_single_line R E avail s input a).1
      = Flexible.ocr R E avail s input ∧
    (Flexible.set_cand_alphabet s a).cand_alphabet = a ∧
    (Flexible.set_cand_alphabet s a).name = s.name ∧
    (Flexible.set_cand_alphabet s a).backend = s.backend ∧
    (Flexible.set_cand_alphabet s a).impl = s.impl ∧
    Flexible.ocr R E avail (Flexible.set_cand_alphabet s a) input
      = Flexible.ocr R E avail s input := by
  refine ⟨?_, ?_, ?_, ?_, ?_, ?_, ?_, ?_⟩ <;>
    simp [Flexible.atomic_ocr, Flexible.atomic_ocr_for_single_line,
          Flexible.ocr, Flexible.set_cand_alphabet, hb]

/-- Witness for C10 at a concrete EasyOCR-backed state. -/
theorem easyocr_alphabet_independent_witness :
    flexState0.backend = "easyocr" ∧
    ((Flexible.atomic_ocr readerOk engineOk true flexState0 (PyInput.array img1)
        (Option.some "XY")).1
       = Flexible.ocr readerOk engineOk true flexState0 (PyInput.array img1) ∧
     (Flexible.atomic_ocr readerOk engineOk true flexState0 (PyInput.array img1)
        (Option.some "XY")).2 = flexState0 ∧
     (Flexible.atomic_ocr_for_single_line readerOk engineOk true flexState0
        (PyInput.array img1) (Option.some "XY")).1
       = Flexible.ocr readerOk engineOk true flexState0 (PyInput.array img1) ∧
     (Flexible.set_cand_alphabet flexState0 (Option.some "XY")).cand_alphabet
       = Option.some "XY" ∧
     (Flexible.set_cand_alphabet flexState0 (Option.some "XY")).name = flexState0.name ∧
     (Flexible.set_cand_alphabet flexState0 (Option.some "XY")).backend
       = flexState0.backend ∧
     (Flexible.set_cand_alphabet flexState0 (Option.some "XY")).impl = flexState0.impl ∧
     Flexible.ocr readerOk engineOk true
        (Flexible.set_cand_alphabet flexState0 (Option.some "XY")) (PyInput.array img1)
       = Flexible.ocr readerOk engineOk true flexState0 (PyInput.array img1)) :=
  ⟨rfl, easyocr_alphabet_independent readerOk engineOk true flexState0
     (PyInput.array img1) (Option.some "XY") rfl⟩

end AlasOcr
